import Mathlib

/-!
Shallow embedding of the `plct-archrv-pkg-bot` server routes
(`src/server/src/routes.rs`): the `/pkg` listing route and the
`/delete/{pkgname}/{status}` package-completion route.  The collaborators
(the sqlite store `sql::*` and the telegram bot `tg::Bot`) are modelled as
oracles whose results are supplied by an environment record, and every call
the handler makes to them is recorded in an event trace, so that claims
about side effects ("no notification is sent", "dropAssignment is never
called") become statements about the trace.
-/

namespace PkgBot

/-- The packager row returned by `sql::find_packager`: display alias and
telegram numeric uid, the two fields `routes.rs` reads. -/
structure Packager where
  pkgAlias : String
  tg_uid : Int
  deriving DecidableEq, Repr

/-- A call made to the status store (`sql::*`), with its arguments. -/
inductive StoreCall
  | find_packager (pkgname : String)
  | drop_assign (pkgname : String) (uid : Int)
  | remove_marks (pkgname : String) (markFilter : Option (List String))
  deriving DecidableEq, Repr

/-- An observable side-effect of one handler invocation: a store call or a
telegram `send_message` call carrying the message text. -/
inductive Event
  | store (c : StoreCall)
  | send (text : String)
  deriving DecidableEq, Repr

/-- The `ReqStatus` enum of `routes.rs`. -/
inductive ReqStatus
  | Ok
  | Fail
  deriving DecidableEq, Repr

/-- An HTTP response produced by the routes: either a `MsgResp` JSON body
with its HTTP status code, or the `/pkg` listing body. -/
inductive Resp
  | msgResp (code : Nat) (status : ReqStatus) (msg : String) (detail : String)
  | pkgResp (workList : List String) (markList : List String)
  deriving DecidableEq, Repr

/-- `MsgResp::new_200_msg`: status `Ok`, msg `"Request success"`. -/
def MsgResp.new_200_msg (detail : String) : Resp :=
  Resp.msgResp 200 ReqStatus.Ok "Request success" detail

/-- `MsgResp::new_500_resp`: internal server error with hint and detail. -/
def MsgResp.new_500_resp (msg detail : String) : Resp :=
  Resp.msgResp 500 ReqStatus.Fail msg detail

/-- `MsgResp::new_403_resp`: forbidden. -/
def MsgResp.new_403_resp (detail : String) : Resp :=
  Resp.msgResp 403 ReqStatus.Fail "forbidden" detail

/-- `MsgResp::new_400_resp`: bad request. -/
def MsgResp.new_400_resp (detail : String) : Resp :=
  Resp.msgResp 400 ReqStatus.Fail "bad request" detail

/-- The environment of one `/delete` invocation: the configured secret
(`State.token`) and the oracle results of each collaborator call.  Store
and bot calls are deterministic in their arguments within one invocation,
which loses no generality for the properties proved here since every
distinct call site uses distinct arguments. -/
structure Env where
  token : String
  find_packager : String → Except String Packager
  drop_assign : String → Int → Except String Unit
  remove_marks : String → Option (List String) → Except String (List String)
  send_message : String → Except String Unit

/-- Modelled from the spec: `tg::gen_mention_link` (tg.rs is not among the
given sources).  Produces the human-facing mention interpolating the
packager's alias and numeric identity; its exact shape is irrelevant to the
claims, which only use that the primary text is built from it. -/
def gen_mention_link (a : String) (uid : Int) : String :=
  "<a href=\"tg://user?id=" ++ toString uid ++ "\">" ++ a ++ "</a>"

/-- The fixed mark vocabulary passed to `sql::remove_marks` in the spawned
cleanup task of the `/delete` route (`matches` in the source). -/
def markVocab : List String :=
  ["outdated", "stuck", "ready", "outdated_dep", "missing_dep", "unknown",
   "ignore", "failing"]

/-- The fixed tag prefix of the `/delete` route (`prefix` in the source),
used both by the primary completion message and by the drop-failure
message. -/
def msgPrefix : String := "<code>(auto-merge)</code>"

/-- The fixed tag prefix of the cleanup ("auto-unmark") notification. -/
def unmarkPrefix : String := "<code>(auto-unmark)</code>"

/-- The primary notification text of the `/delete` route:
`format!("{prefix} ping {}: {} 已出包", gen_mention_link(..), pkgname)`. -/
def primaryText (p : Packager) (pkgname : String) : String :=
  msgPrefix ++ " ping " ++ gen_mention_link p.pkgAlias p.tg_uid ++ ": "
    ++ pkgname ++ " 已出包"

/-- The spawned cleanup task of the `/delete` route (source lines 160-192):
remove the fixed vocabulary of marks, then send either the unmark summary
or the mark-deletion-failure message.  Returns the task's inner result (the
last `send_message` result, which the caller discards) and the trace of
calls it made. -/
def cleanupTask (env : Env) (pkgname : String) :
    Except String Unit × List Event :=
  match env.remove_marks pkgname (some markVocab) with
  | Except.ok deleted =>
      let marks := String.intercalate "," deleted
      let text := unmarkPrefix ++ " " ++ pkgname ++ " 已出包，不再标记为：" ++ marks
      (env.send_message text,
       [Event.store (StoreCall.remove_marks pkgname (some markVocab)),
        Event.send text])
  | Except.error err =>
      let text := "fail to delete marks for " ++ pkgname ++ ": \n<code>"
        ++ err ++ "</code>"
      (env.send_message text,
       [Event.store (StoreCall.remove_marks pkgname (some markVocab)),
        Event.send text])

/-- The `/delete/{pkgname}/{status}` handler (`delete` in `routes.rs`),
returning the HTTP response and the trace of collaborator calls.  The
spawned cleanup task is awaited before returning; its inner result is
discarded by the source (only a tokio `JoinError`, impossible in this pure
model, is even inspected, and the 500 response the source builds for it is
itself discarded, not returned). -/
def delete (env : Env) (pkgname status token : String) :
    Resp × List Event :=
  if token ≠ env.token then
    (MsgResp.new_403_resp "invalid token", [])
  else if status ∉ (["ftbfs", "leaf"] : List String) then
    (MsgResp.new_400_resp ("Required 'ftbfs' or 'leaf', get " ++ status), [])
  else
    let ev0 := [Event.store (StoreCall.find_packager pkgname)]
    match env.find_packager pkgname with
    | Except.error err =>
        (MsgResp.new_500_resp "fail to fetch packager" err, ev0)
    | Except.ok packager =>
        let text := primaryText packager pkgname
        let ev1 := ev0 ++ [Event.send text]
        match env.send_message text with
        | Except.error err =>
            (MsgResp.new_500_resp "fail to send telegram message" err, ev1)
        | Except.ok _ =>
            let ev2 := ev1
              ++ [Event.store (StoreCall.drop_assign pkgname packager.tg_uid)]
            match env.drop_assign pkgname packager.tg_uid with
            | Except.error err =>
                let text2 := msgPrefix ++ " failed: " ++ err
                let ev3 := ev2 ++ [Event.send text2]
                match env.send_message text2 with
                | Except.error err2 =>
                    (MsgResp.new_500_resp "fail to send telegram message" err2,
                     ev3)
                | Except.ok _ =>
                    (MsgResp.new_200_msg "package deleted",
                     ev3 ++ (cleanupTask env pkgname).2)
            | Except.ok _ =>
                (MsgResp.new_200_msg "package deleted",
                 ev2 ++ (cleanupTask env pkgname).2)

/-- Modelled from the spec: the store-level semantics of `sql::remove_marks`
(sql.rs is not among the given sources).  Given the marks currently attached
to a package and an optional filter, only marks in the filter are removed;
returns the pair (names actually removed, surviving marks). -/
def removeMarksModel (marks : List String) (markFilter : Option (List String)) :
    List String × List String :=
  match markFilter with
  | some f => (marks.filter (fun m => decide (m ∈ f)),
               marks.filter (fun m => decide (m ∉ f)))
  | none => (marks, [])

/-- The environment of one `/pkg` invocation: the results of the two read
queries.  The row types of sql.rs are not among the given sources; each row
is kept abstract as its serialized payload, which is all the pass-through
contract needs. -/
structure PkgEnv where
  get_working_list : Except String (List String)
  get_mark_list : Except String (List String)

/-- The `/pkg` handler (`pkg` in `routes.rs`): fetch the working list, on
error answer 500; fetch the mark list, on error answer 500; otherwise
answer the two lists unchanged. -/
def pkg (env : PkgEnv) : Resp :=
  match env.get_working_list with
  | Except.error err => MsgResp.new_500_resp "fail to get working list" err
  | Except.ok wl =>
      match env.get_mark_list with
      | Except.error err => MsgResp.new_500_resp "fail to get mark list" err
      | Except.ok ml => Resp.pkgResp wl ml

/-! Concrete environments used to witness the theorems below. -/

/-- The packager of the spec's running scenario. -/
def alice : Packager := ⟨"alice", 42⟩

/-- Every collaborator call succeeds. -/
def envOk : Env :=
  ⟨"secret", fun _ => Except.ok alice, fun _ _ => Except.ok (),
   fun _ _ => Except.ok ["stuck", "ready"], fun _ => Except.ok ()⟩

/-- The packager lookup fails. -/
def envFindErr : Env :=
  ⟨"secret", fun _ => Except.error "db down", fun _ _ => Except.ok (),
   fun _ _ => Except.ok [], fun _ => Except.ok ()⟩

/-- Every telegram send fails. -/
def envSendErr : Env :=
  ⟨"secret", fun _ => Except.ok alice, fun _ _ => Except.ok (),
   fun _ _ => Except.ok [], fun _ => Except.error "net down"⟩

/-- The unassignment step fails; every send succeeds. -/
def envDropFail : Env :=
  ⟨"secret", fun _ => Except.ok alice, fun _ _ => Except.error "boom",
   fun _ _ => Except.ok ["stuck"], fun _ => Except.ok ()⟩

/-- The unassignment step fails, and so does the send of the drop-failure
notification (only that send). -/
def envDropAndSendFail : Env :=
  ⟨"secret", fun _ => Except.ok alice, fun _ _ => Except.error "boom",
   fun _ _ => Except.ok [],
   fun t => if t = msgPrefix ++ " failed: boom" then Except.error "gone"
            else Except.ok ()⟩

/-- The text of the cleanup-success notification for package `foo` with
removed marks `stuck,ready`. -/
def c1CleanupText : String :=
  unmarkPrefix ++ " foo 已出包，不再标记为：stuck,ready"

/-- Every step succeeds except the cleanup-step notification send (the
third message, reporting the result of the mark removal). -/
def envCleanupSendFail : Env :=
  ⟨"secret", fun _ => Except.ok alice, fun _ _ => Except.ok (),
   fun _ _ => Except.ok ["stuck", "ready"],
   fun t => if t = c1CleanupText then Except.error "boom" else Except.ok ()⟩

/-- Both `/pkg` read queries succeed. -/
def pkgEnvOk : PkgEnv := ⟨Except.ok ["w1", "w2"], Except.ok ["m1"]⟩

/-- Helper: the primary notification text carries the fixed
`(auto-merge)` tag prefix. -/
theorem primaryText_has_prefix (p : Packager) (pkgname : String) :
    ∃ r, primaryText p pkgname = msgPrefix ++ r :=
  ⟨" ping " ++ gen_mention_link p.pkgAlias p.tg_uid ++ ": " ++ pkgname
     ++ " 已出包",
   by simp [primaryText, String.append_assoc]⟩

/-- C3: for every credential different from the configured secret, the
`/delete` route answers the 403 forbidden envelope and performs no store
call and no notifier call at all (empty trace), whatever the status
argument is. -/
theorem delete_wrong_token (env : Env) (pkgname status token : String)
    (h : token ≠ env.token) :
    delete env pkgname status token =
      (MsgResp.new_403_resp "invalid token", []) := by
  simp [delete, h]

theorem delete_wrong_token_witness :
    ("bad" : String) ≠ envOk.token ∧
      delete envOk "foo" "bogus" "bad" =
        (MsgResp.new_403_resp "invalid token", []) :=
  ⟨by decide, delete_wrong_token envOk "foo" "bogus" "bad" (by decide)⟩

/-- C4: with a valid credential, every status outside {ftbfs, leaf} is
answered by the 400 bad-request envelope whose detail echoes the offending
status value, with no store call and no notifier call (empty trace). -/
theorem delete_invalid_status (env : Env) (pkgname status token : String)
    (htok : token = env.token)
    (hst : status ∉ (["ftbfs", "leaf"] : List String)) :
    delete env pkgname status token =
      (MsgResp.new_400_resp ("Required 'ftbfs' or 'leaf', get " ++ status),
       []) := by
  simp [delete, htok, hst]

theorem delete_invalid_status_witness :
    ("secret" : String) = envOk.token ∧
    ("bogus" : String) ∉ (["ftbfs", "leaf"] : List String) ∧
    delete envOk "foo" "bogus" "secret" =
      (MsgResp.new_400_resp "Required 'ftbfs' or 'leaf', get bogus", []) :=
  ⟨rfl, by decide,
   delete_invalid_status envOk "foo" "bogus" "secret" rfl (by decide)⟩

/-- C6: when the packager lookup fails (not-found or store failure), the
`/delete` route aborts with the 500 server-error envelope carrying the
error, the trace holds only the lookup call, and in particular no
notification is ever sent. -/
theorem delete_find_packager_failure (env : Env)
    (pkgname status token err : String)
    (htok : token = env.token)
    (hst : status ∈ (["ftbfs", "leaf"] : List String))
    (hfp : env.find_packager pkgname = Except.error err) :
    delete env pkgname status token =
      (MsgResp.new_500_resp "fail to fetch packager" err,
       [Event.store (StoreCall.find_packager pkgname)]) ∧
    ∀ t, Event.send t ∉ (delete env pkgname status token).2 := by
  have h : delete env pkgname status token =
      (MsgResp.new_500_resp "fail to fetch packager" err,
       [Event.store (StoreCall.find_packager pkgname)]) := by
    simp [delete, htok, hst, hfp]
  refine ⟨h, fun t => ?_⟩
  rw [h]
  simp

theorem delete_find_packager_failure_witness :
    delete envFindErr "foo" "ftbfs" "secret" =
      (MsgResp.new_500_resp "fail to fetch packager" "db down",
       [Event.store (StoreCall.find_packager "foo")]) ∧
    ∀ t, Event.send t ∉ (delete envFindErr "foo" "ftbfs" "secret").2 :=
  delete_find_packager_failure envFindErr "foo" "ftbfs" "secret" "db down"
    rfl (by decide) rfl

/-- C5: when the primary notification send fails, the `/delete` route
aborts with the 500 server-error envelope carrying the send error, and
`drop_assign` is never called (the trace holds only the lookup and the
failed send). -/
theorem delete_primary_notify_failure (env : Env)
    (pkgname status token : String) (p : Packager) (e : String)
    (htok : token = env.token)
    (hst : status ∈ (["ftbfs", "leaf"] : List String))
    (hfp : env.find_packager pkgname = Except.ok p)
    (hsend : env.send_message (primaryText p pkgname) = Except.error e) :
    delete env pkgname status token =
      (MsgResp.new_500_resp "fail to send telegram message" e,
       [Event.store (StoreCall.find_packager pkgname),
        Event.send (primaryText p pkgname)]) ∧
    ∀ pn uid, Event.store (StoreCall.drop_assign pn uid) ∉
      (delete env pkgname status token).2 := by
  have h : delete env pkgname status token =
      (MsgResp.new_500_resp "fail to send telegram message" e,
       [Event.store (StoreCall.find_packager pkgname),
        Event.send (primaryText p pkgname)]) := by
    simp [delete, htok, hst, hfp, hsend]
  refine ⟨h, fun pn uid => ?_⟩
  rw [h]
  simp

theorem delete_primary_notify_failure_witness :
    delete envSendErr "foo" "ftbfs" "secret" =
      (MsgResp.new_500_resp "fail to send telegram message" "net down",
       [Event.store (StoreCall.find_packager "foo"),
        Event.send (primaryText alice "foo")]) ∧
    ∀ pn uid, Event.store (StoreCall.drop_assign pn uid) ∉
      (delete envSendErr "foo" "ftbfs" "secret").2 :=
  delete_primary_notify_failure envSendErr "foo" "ftbfs" "secret" alice
    "net down" rfl (by decide) rfl rfl

/-- C2: when `drop_assign` fails but the send of the drop-failure
notification succeeds, the `/delete` route still answers the 200 success
envelope (soft-failure absorption), the failure notification is sent, and
its text ends in (hence contains) the raw store error. -/
theorem delete_soft_failure_absorption (env : Env)
    (pkgname status token : String) (p : Packager) (e : String)
    (htok : token = env.token)
    (hst : status ∈ (["ftbfs", "leaf"] : List String))
    (hfp : env.find_packager pkgname = Except.ok p)
    (hsend1 : env.send_message (primaryText p pkgname) = Except.ok ())
    (hdrop : env.drop_assign pkgname p.tg_uid = Except.error e)
    (hsend2 : env.send_message (msgPrefix ++ " failed: " ++ e) =
      Except.ok ()) :
    (delete env pkgname status token).1 =
      MsgResp.new_200_msg "package deleted" ∧
    Event.send (msgPrefix ++ " failed: " ++ e) ∈
      (delete env pkgname status token).2 ∧
    ∃ s, msgPrefix ++ " failed: " ++ e = s ++ e := by
  refine ⟨?_, ?_, ⟨msgPrefix ++ " failed: ", rfl⟩⟩ <;>
    simp [delete, htok, hst, hfp, hsend1, hdrop, hsend2]

theorem delete_soft_failure_absorption_witness :
    (delete envDropFail "foo" "ftbfs" "secret").1 =
      MsgResp.new_200_msg "package deleted" ∧
    Event.send (msgPrefix ++ " failed: boom") ∈
      (delete envDropFail "foo" "ftbfs" "secret").2 ∧
    ∃ s, msgPrefix ++ " failed: " ++ "boom" = s ++ "boom" :=
  delete_soft_failure_absorption envDropFail "foo" "ftbfs" "secret" alice
    "boom" rfl (by decide) rfl rfl rfl rfl

/-- C10: once the credential and status checks pass, the lookup succeeds,
the primary send succeeds, and either `drop_assign` succeeds or the
drop-failure notification send succeeds, the `/delete` route answers
exactly the fixed 200 envelope (status Ok, msg "Request success", detail
"package deleted"), whatever the mark removal and the cleanup notification
do. -/
theorem delete_success_envelope (env : Env)
    (pkgname status token : String) (p : Packager)
    (htok : token = env.token)
    (hst : status ∈ (["ftbfs", "leaf"] : List String))
    (hfp : env.find_packager pkgname = Except.ok p)
    (hsend1 : env.send_message (primaryText p pkgname) = Except.ok ())
    (hnext : env.drop_assign pkgname p.tg_uid = Except.ok () ∨
      ∃ e, env.drop_assign pkgname p.tg_uid = Except.error e ∧
        env.send_message (msgPrefix ++ " failed: " ++ e) = Except.ok ()) :
    (delete env pkgname status token).1 =
      Resp.msgResp 200 ReqStatus.Ok "Request success" "package deleted" := by
  rcases hnext with hdrop | ⟨e, hdrop, hsend2⟩
  · simp [delete, MsgResp.new_200_msg, htok, hst, hfp, hsend1, hdrop]
  · simp [delete, MsgResp.new_200_msg, htok, hst, hfp, hsend1, hdrop, hsend2]

theorem delete_success_envelope_witness :
    (delete envCleanupSendFail "foo" "ftbfs" "secret").1 =
      Resp.msgResp 200 ReqStatus.Ok "Request success" "package deleted" :=
  delete_success_envelope envCleanupSendFail "foo" "ftbfs" "secret" alice
    rfl (by decide) rfl rfl (Or.inl rfl)

/-- C1 counterexample: in a run where every step succeeds except the
cleanup-step notification send (the third message, reporting the result of
the mark removal), the `/delete` route still answers the 200 success
envelope — the cleanup send failure is not surfaced as a server error. -/
theorem c1_cleanup_send_failure_ignored :
    envCleanupSendFail.send_message c1CleanupText = Except.error "boom" ∧
    Event.send c1CleanupText ∈
      (delete envCleanupSendFail "foo" "ftbfs" "secret").2 ∧
    (delete envCleanupSendFail "foo" "ftbfs" "secret").1 =
      MsgResp.new_200_msg "package deleted" := by
  refine ⟨rfl, by decide, by decide⟩

/-- C1 (amended): a notification-send failure in step 4 (the primary send)
or step 5 (the drop-failure send) escalates to the 500 server-error
envelope carrying the triggering error's detail; a send failure in the
step 6 cleanup task is ignored: once the primary send succeeded and the
unassignment step succeeded or was absorbed, the route answers the 200
success envelope whatever the cleanup send result. -/
theorem delete_notify_failure_scope (env : Env)
    (pkgname status token : String) (p : Packager)
    (htok : token = env.token)
    (hst : status ∈ (["ftbfs", "leaf"] : List String))
    (hfp : env.find_packager pkgname = Except.ok p) :
    (∀ e, env.send_message (primaryText p pkgname) = Except.error e →
      (delete env pkgname status token).1 =
        MsgResp.new_500_resp "fail to send telegram message" e) ∧
    (∀ e e2, env.send_message (primaryText p pkgname) = Except.ok () →
      env.drop_assign pkgname p.tg_uid = Except.error e →
      env.send_message (msgPrefix ++ " failed: " ++ e) = Except.error e2 →
      (delete env pkgname status token).1 =
        MsgResp.new_500_resp "fail to send telegram message" e2) ∧
    (∀ e, env.send_message (primaryText p pkgname) = Except.ok () →
      (env.drop_assign pkgname p.tg_uid = Except.ok () ∨
        (env.drop_assign pkgname p.tg_uid = Except.error e ∧
         env.send_message (msgPrefix ++ " failed: " ++ e) = Except.ok ())) →
      (delete env pkgname status token).1 =
        MsgResp.new_200_msg "package deleted") := by
  refine ⟨fun e hsend => ?_, fun e e2 hsend1 hdrop hsend2 => ?_,
    fun e hsend1 hnext => ?_⟩
  · simp [delete, htok, hst, hfp, hsend]
  · simp [delete, htok, hst, hfp, hsend1, hdrop, hsend2]
  · rcases hnext with hdrop | ⟨hdrop, hsend2⟩
    · simp [delete, htok, hst, hfp, hsend1, hdrop]
    · simp [delete, htok, hst, hfp, hsend1, hdrop, hsend2]

theorem delete_notify_failure_scope_witness :
    (delete envDropAndSendFail "foo" "ftbfs" "secret").1 =
      MsgResp.new_500_resp "fail to send telegram message" "gone" :=
  (delete_notify_failure_scope envDropAndSendFail "foo" "ftbfs" "secret"
      alice rfl (by decide) rfl).2.1 "boom" "gone" rfl rfl rfl

/-- C8 counterexample: when `drop_assign` fails, the failure notification
reuses the very same `(auto-merge)` tag prefix as the primary completion
notification — both sent texts carry an identical prefix, not different
ones (the distinct `(auto-unmark)` prefix belongs to the cleanup message,
not to the failure notification). -/
theorem c8_same_prefix_on_failure_notification :
    envDropFail.drop_assign "foo" alice.tg_uid = Except.error "boom" ∧
    Event.send (primaryText alice "foo") ∈
      (delete envDropFail "foo" "ftbfs" "secret").2 ∧
    Event.send (msgPrefix ++ " failed: boom") ∈
      (delete envDropFail "foo" "ftbfs" "secret").2 ∧
    (∃ r, primaryText alice "foo" = msgPrefix ++ r) ∧
    (∃ r, msgPrefix ++ " failed: boom" = msgPrefix ++ r) :=
  ⟨rfl, by decide, by decide, primaryText_has_prefix alice "foo",
   ⟨" failed: boom", rfl⟩⟩

/-- C8 (amended): when `drop_assign` fails, the failure notification is
sent with the same fixed `(auto-merge)` tag prefix as the primary
completion notification, followed by " failed:" and the error; the two
fixed prefixes `(auto-merge)` and `(auto-unmark)` distinguish the
completion-related messages from the cleanup unmark message, not the
primary from the failure notification. -/
theorem delete_failure_notification_prefix (env : Env)
    (pkgname status token : String) (p : Packager) (e : String)
    (htok : token = env.token)
    (hst : status ∈ (["ftbfs", "leaf"] : List String))
    (hfp : env.find_packager pkgname = Except.ok p)
    (hsend1 : env.send_message (primaryText p pkgname) = Except.ok ())
    (hdrop : env.drop_assign pkgname p.tg_uid = Except.error e) :
    Event.send (msgPrefix ++ " failed: " ++ e) ∈
      (delete env pkgname status token).2 ∧
    (∃ r, msgPrefix ++ " failed: " ++ e = msgPrefix ++ r) ∧
    (∃ r, primaryText p pkgname = msgPrefix ++ r) ∧
    unmarkPrefix ≠ msgPrefix := by
  refine ⟨?_, ⟨" failed: " ++ e, by simp [String.append_assoc]⟩,
    primaryText_has_prefix p pkgname, by decide⟩
  rcases hsend2 : env.send_message (msgPrefix ++ " failed: " ++ e)
    with e2 | u2
  · simp [delete, htok, hst, hfp, hsend1, hdrop, hsend2]
  · simp [delete, htok, hst, hfp, hsend1, hdrop, hsend2]

theorem delete_failure_notification_prefix_witness :
    Event.send (msgPrefix ++ " failed: " ++ "boom") ∈
      (delete envDropFail "foo" "ftbfs" "secret").2 ∧
    (∃ r, msgPrefix ++ " failed: " ++ "boom" = msgPrefix ++ r) ∧
    (∃ r, primaryText alice "foo" = msgPrefix ++ r) ∧
    unmarkPrefix ≠ msgPrefix :=
  delete_failure_notification_prefix envDropFail "foo" "ftbfs" "secret"
    alice "boom" rfl (by decide) rfl rfl rfl

/-- C7: every `remove_marks` call the `/delete` route makes carries exactly
the fixed eight-mark vocabulary as its filter (and targets the requested
package), and under the store semantics of `remove_marks` a mark outside
that vocabulary attached to the package survives the call untouched. -/
theorem delete_remove_marks_vocab :
    (∀ (env : Env) (pkgname status token p : String)
      (f : Option (List String)),
      Event.store (StoreCall.remove_marks p f) ∈
        (delete env pkgname status token).2 →
      p = pkgname ∧ f = some markVocab) ∧
    (∀ (marks : List String) (m : String), m ∉ markVocab → m ∈ marks →
      m ∈ (removeMarksModel marks (some markVocab)).2) := by
  constructor
  · intro env pkgname status token p f hmem
    by_cases htok : token = env.token
    · by_cases hst : status ∈ (["ftbfs", "leaf"] : List String)
      · rcases hfp : env.find_packager pkgname with err | pk
        · simp [delete, htok, hst, hfp] at hmem
        · rcases hs1 : env.send_message (primaryText pk pkgname)
            with e1 | u1
          · simp [delete, htok, hst, hfp, hs1] at hmem
          · rcases hd : env.drop_assign pkgname pk.tg_uid with e2 | u2
            · rcases hs2 : env.send_message (msgPrefix ++ " failed: " ++ e2)
                with e3 | u3
              · simp [delete, htok, hst, hfp, hs1, hd, hs2] at hmem
              · rcases hrm : env.remove_marks pkgname (some markVocab)
                  with e4 | del <;>
                · simp [delete, cleanupTask, htok, hst, hfp, hs1, hd, hs2,
                    hrm] at hmem
                  exact hmem
            · rcases hrm : env.remove_marks pkgname (some markVocab)
                with e4 | del <;>
              · simp [delete, cleanupTask, htok, hst, hfp, hs1, hd,
                  hrm] at hmem
                exact hmem
      · simp [delete, htok, hst] at hmem
    · simp [delete, htok] at hmem
  · intro marks m hnv hm
    simp [removeMarksModel, List.mem_filter, hm, hnv]

theorem delete_remove_marks_vocab_witness :
    (("foo" : String) = "foo" ∧
      (some markVocab : Option (List String)) = some markVocab) ∧
    "extra" ∈ (removeMarksModel ["extra", "stuck"] (some markVocab)).2 :=
  ⟨delete_remove_marks_vocab.1 envOk "foo" "ftbfs" "secret" "foo"
      (some markVocab) (by decide),
   delete_remove_marks_vocab.2 ["extra", "stuck"] "extra" (by decide)
      (by decide)⟩

/-- C9: the `/pkg` route passes both read query results through unchanged
into the response when both succeed, and answers the 500 server-error
envelope carrying the query's error when either fails (the working list
checked first). -/
theorem pkg_passthrough (env : PkgEnv) :
    (∀ wl ml, env.get_working_list = Except.ok wl →
      env.get_mark_list = Except.ok ml → pkg env = Resp.pkgResp wl ml) ∧
    (∀ e, env.get_working_list = Except.error e →
      pkg env = MsgResp.new_500_resp "fail to get working list" e) ∧
    (∀ wl e, env.get_working_list = Except.ok wl →
      env.get_mark_list = Except.error e →
      pkg env = MsgResp.new_500_resp "fail to get mark list" e) := by
  refine ⟨fun wl ml h1 h2 => ?_, fun e h1 => ?_, fun wl e h1 h2 => ?_⟩
  · simp [pkg, h1, h2]
  · simp [pkg, h1]
  · simp [pkg, h1, h2]

theorem pkg_passthrough_witness :
    pkg pkgEnvOk = Resp.pkgResp ["w1", "w2"] ["m1"] :=
  (pkg_passthrough pkgEnvOk).1 ["w1", "w2"] ["m1"] rfl rfl

end PkgBot
